import Mathlib

/-!
Verification of the hyper 1.x compatibility adapter
(`examples/pokemon-service-server-skd-patch/src/hyper_compat.rs`).

The adapter defines a newtype wrapper `HyperIncoming` around
`hyper::body::Incoming` and three `From` conversions:

1. `impl From<HyperIncoming> for ByteStream` — delegates to
   `ByteStream::from_body_1_x(wrapper.0)`;
2. `impl From<hyper::body::Incoming> for HyperIncoming` — the newtype
   constructor;
3. `impl From<hyper::body::Incoming> for ByteStream` — the composition
   `HyperIncoming::from(body).into()`.

The body type and the byte-stream type are external to the module, so
they are modelled from the spec; the three conversions are translated
directly from the source.
-/

/-- A byte of payload data. -/
abbrev Byte := Nat

/-- Modelled from the spec: one frame of an incoming HTTP body as delivered
by the transport layer — either a chunk of payload bytes, or a transport
failure (e.g. malformed chunked encoding, connection reset) surfaced
mid-read.  The type `hyper::body::Incoming` itself is external to the
repository. -/
inductive Frame where
  | data (bytes : List Byte)
  | fail (e : String)
deriving DecidableEq

/-- Modelled from the spec: the externally-defined incoming HTTP body value
(`hyper::body::Incoming`), a sequence of frames produced by the transport. -/
structure Incoming where
  frames : List Frame
deriving DecidableEq

/-- Modelled from the spec: the SDK's generic byte-stream abstraction
(`ByteStream`), "capable of being constructed from the body type"; it holds
the body it was constructed over and surfaces its bytes and errors when
read, unchanged. -/
structure ByteStream where
  body : Incoming
deriving DecidableEq

/-- Modelled from the spec: the byte-stream type's native body constructor
`ByteStream::from_body_1_x`, external to this module; it adopts the body as
the stream's source without transforming it. -/
def ByteStream.from_body_1_x (body : Incoming) : ByteStream :=
  ⟨body⟩

/-- Modelled from the spec: fully reading the frames of a body yields the
concatenation of its data chunks, or the first transport error, verbatim. -/
def readFrames : List Frame → Except String (List Byte)
  | [] => Except.ok []
  | Frame.data bs :: rest => (readFrames rest).map (fun tl => bs ++ tl)
  | Frame.fail e :: _ => Except.error e

/-- Modelled from the spec: fully reading a byte stream reads the frames of
the body it was constructed over. -/
def ByteStream.read (s : ByteStream) : Except String (List Byte) :=
  readFrames s.body.frames

/-- The newtype wrapper from the source:
`pub struct HyperIncoming(pub hyper::body::Incoming);`
`f0` is the single (position-0) public field. -/
structure HyperIncoming where
  f0 : Incoming
deriving DecidableEq

/-- `impl From<hyper::body::Incoming> for HyperIncoming`:
`fn from(body) { HyperIncoming(body) }` (the spec's `Wrap`). -/
def HyperIncoming.fromIncoming (body : Incoming) : HyperIncoming :=
  HyperIncoming.mk body

/-- `impl From<HyperIncoming> for ByteStream`:
`fn from(wrapper) { ByteStream::from_body_1_x(wrapper.0) }`. -/
def ByteStream.fromWrapper (wrapper : HyperIncoming) : ByteStream :=
  ByteStream.from_body_1_x wrapper.f0

/-- `impl From<hyper::body::Incoming> for ByteStream`:
`fn from(body) { HyperIncoming::from(body).into() }` (the spec's
`Convert`). -/
def ByteStream.fromIncoming (body : Incoming) : ByteStream :=
  ByteStream.fromWrapper (HyperIncoming.fromIncoming body)

/-- The spec's `Unwrap`: projection of the wrapper's single field,
`wrapper.0` in the source. -/
def HyperIncoming.unwrap (w : HyperIncoming) : Incoming :=
  w.f0

/-- C1: for every body value `b`, the wrapper-mediated conversion
(`impl From<hyper::body::Incoming> for ByteStream`) equals calling the
native constructor `ByteStream::from_body_1_x` directly on `b`: the two
paths are equal as functions. -/
theorem convert_eq_from_body_1_x :
    ByteStream.fromIncoming = ByteStream.from_body_1_x := by
  funext b
  rfl

/-- C2: wrapping then immediately unwrapping yields back the original body
value: `Unwrap(Wrap(b)) = b`. -/
theorem unwrap_wrap_id (b : Incoming) :
    (HyperIncoming.fromIncoming b).unwrap = b := by
  rfl

/-- Witness for C2 at a concrete body value. -/
theorem unwrap_wrap_id_witness :
    (HyperIncoming.fromIncoming ⟨[Frame.data [104]]⟩).unwrap
      = ⟨[Frame.data [104]]⟩ :=
  unwrap_wrap_id ⟨[Frame.data [104]]⟩

/-- C3: `Convert` is exactly: construct the wrapper from the body, then
call `from_body_1_x` on the wrapper's contained value, and return that;
the body reaches the stream untouched (no buffering, transformation or
inspection). -/
theorem convert_steps (b : Incoming) :
    ByteStream.fromIncoming b
        = ByteStream.from_body_1_x (HyperIncoming.fromIncoming b).f0
      ∧ (ByteStream.fromIncoming b).body = b := by
  exact ⟨rfl, rfl⟩

/-- C4: `Convert` introduces no failure case of its own: reading the stream
it produces gives exactly the result of reading the underlying body's
frames, so it succeeds whenever the native constructor's stream succeeds,
and any transport error is surfaced verbatim, never translated or
masked. -/
theorem convert_error_passthrough (b : Incoming) :
    (ByteStream.fromIncoming b).read = readFrames b.frames
      ∧ (∀ bs, (ByteStream.from_body_1_x b).read = Except.ok bs →
          (ByteStream.fromIncoming b).read = Except.ok bs)
      ∧ (∀ e, readFrames b.frames = Except.error e →
          (ByteStream.fromIncoming b).read = Except.error e) := by
  refine ⟨rfl, fun bs h => h, fun e h => h⟩

/-- Witness for C4: a body whose transport reports a connection error
mid-read; the converted stream surfaces that same error. -/
theorem convert_error_passthrough_witness :
    (ByteStream.fromIncoming
        ⟨[Frame.data [104], Frame.fail "connection reset"]⟩).read
        = readFrames [Frame.data [104], Frame.fail "connection reset"]
      ∧ (ByteStream.fromIncoming
          ⟨[Frame.data [104], Frame.fail "connection reset"]⟩).read
        = Except.error "connection reset" := by
  refine ⟨(convert_error_passthrough
      ⟨[Frame.data [104], Frame.fail "connection reset"]⟩).1, ?_⟩
  exact (convert_error_passthrough
      ⟨[Frame.data [104], Frame.fail "connection reset"]⟩).2.2
    "connection reset" rfl

/-- C5: `Wrap` is a total pure construction: for every body value it is
exactly the wrapper constructor applied to that value — it always
succeeds, has no error branch, and its result contains the body
unchanged. -/
theorem wrap_total_pure (b : Incoming) :
    HyperIncoming.fromIncoming b = HyperIncoming.mk b
      ∧ (HyperIncoming.fromIncoming b).f0 = b := by
  exact ⟨rfl, rfl⟩

/-- Witness for C5 at a concrete body value. -/
theorem wrap_total_pure_witness :
    HyperIncoming.fromIncoming ⟨[]⟩ = HyperIncoming.mk ⟨[]⟩
      ∧ (HyperIncoming.fromIncoming ⟨[]⟩).f0 = ⟨[]⟩ :=
  wrap_total_pure ⟨[]⟩

/-- C6: `Convert` has no observable effect beyond passing the body value
through: its whole result is the stream built over exactly the original
body value — the body appears in the output exactly once, unduplicated
and unaltered, and the output depends on nothing else. -/
theorem convert_frame (b : Incoming) :
    ByteStream.fromIncoming b = ByteStream.mk b := by
  rfl

/-- Witness for C6 at a concrete body value. -/
theorem convert_frame_witness :
    ByteStream.fromIncoming ⟨[Frame.data [1, 2]]⟩
      = ByteStream.mk ⟨[Frame.data [1, 2]]⟩ :=
  convert_frame ⟨[Frame.data [1, 2]]⟩

/-- C7: invariant of the wrapper: every `HyperIncoming` value contains
exactly one body value — it is the constructor applied to a unique body,
never absent and never more than one. -/
theorem wrapper_invariant (w : HyperIncoming) :
    ∃ b : Incoming, w = HyperIncoming.mk b
      ∧ ∀ b2 : Incoming, w = HyperIncoming.mk b2 → b2 = b := by
  refine ⟨w.f0, rfl, fun b2 h => ?_⟩
  cases h
  rfl

/-- Witness for C7 at a concrete wrapper value. -/
theorem wrapper_invariant_witness :
    ∃ b : Incoming, HyperIncoming.mk ⟨[]⟩ = HyperIncoming.mk b
      ∧ ∀ b2 : Incoming, HyperIncoming.mk ⟨[]⟩ = HyperIncoming.mk b2
          → b2 = b :=
  wrapper_invariant (HyperIncoming.mk ⟨[]⟩)

/-- C8: on a body carrying the bytes "hello" (104, 101, 108, 108, 111)
with no framing errors, `Convert` produces a stream that reads back
exactly those bytes. -/
theorem convert_hello :
    (ByteStream.fromIncoming
        ⟨[Frame.data [104, 101, 108, 108, 111]]⟩).read
      = Except.ok [104, 101, 108, 108, 111] := by
  rfl

/-- C9: re-wrapping a wrapper's unwrapped contents reproduces it exactly,
`Wrap(Unwrap(w)) = w`; together with C2 this makes `Wrap` a bijection
between body values and wrapper values. -/
theorem wrap_unwrap_id :
    (∀ w : HyperIncoming, HyperIncoming.fromIncoming w.unwrap = w)
      ∧ Function.Bijective HyperIncoming.fromIncoming := by
  constructor
  · intro w
    rfl
  · constructor
    · intro b1 b2 h
      exact congrArg HyperIncoming.f0 h
    · intro w
      exact ⟨w.f0, rfl⟩

/-- C10: each of the three conversions is a deterministic function of its
single argument: equal inputs give equal outputs on any two runs, and no
other input or ambient state is read. -/
theorem conversions_deterministic (b1 b2 : Incoming)
    (w1 w2 : HyperIncoming) (hb : b1 = b2) (hw : w1 = w2) :
    HyperIncoming.fromIncoming b1 = HyperIncoming.fromIncoming b2
      ∧ ByteStream.fromWrapper w1 = ByteStream.fromWrapper w2
      ∧ ByteStream.fromIncoming b1 = ByteStream.fromIncoming b2 := by
  subst hb
  subst hw
  exact ⟨rfl, rfl, rfl⟩

/-- Witness for C10 at concrete equal inputs. -/
theorem conversions_deterministic_witness :
    HyperIncoming.fromIncoming ⟨[]⟩ = HyperIncoming.fromIncoming ⟨[]⟩
      ∧ ByteStream.fromWrapper (HyperIncoming.mk ⟨[]⟩)
          = ByteStream.fromWrapper (HyperIncoming.mk ⟨[]⟩)
      ∧ ByteStream.fromIncoming ⟨[]⟩ = ByteStream.fromIncoming ⟨[]⟩ :=
  conversions_deterministic ⟨[]⟩ ⟨[]⟩ (HyperIncoming.mk ⟨[]⟩)
    (HyperIncoming.mk ⟨[]⟩) rfl rfl
